import Mathlib

/-!
Shallow embedding of `src/elderly-care-backend/server.js` (Elder Care SOS API).

Modelling conventions:
* Timestamps (`new Date()`, ISO strings) are milliseconds since epoch, `Int`.
  Each handler that calls `new Date()` takes the corresponding instant as an
  explicit parameter; `POST /api/emergencies/:id/resolve` calls it twice
  (once for the in-memory stamp, once for the file stamp), so it takes two.
* `uuidv4()` results are explicit `String` parameters.
* JSON numbers in request bodies are `Rat` for coordinates (the target of
  `parseFloat`, identity on numbers) and `Int` for heartRate/steps/battery
  (stored verbatim). A field that may be absent from the body is an `Option`.
* JavaScript truthiness on the fields the code tests: a string is falsy iff
  absent or `""`; a number is falsy iff absent or `0`; an object is falsy iff
  absent.
* The two JSON files are the `devicesFile` / `emergenciesFile` components of
  `ServerState` (the code re-reads them on every request, so the file is the
  only device/emergency-log state). `fs.writeFileSync` successes are recorded
  as `Event.wroteDevices` / `Event.wroteEmergencies`; `io.emit` broadcasts as
  `Event.newEmergency` / `Event.emergencyResolved`. Write failures (the 500
  paths) are outside this model: writes succeed.
-/

namespace ElderCare

/-- `healthData.location` / emergency `location` object. -/
structure HealthLocation where
  latitude : Rat
  longitude : Rat
  address : String
deriving Repr, DecidableEq

/-- `healthData` object of a device record. -/
structure HealthData where
  heartRate : Int
  steps : Int
  battery : Int
  location : HealthLocation
deriving Repr, DecidableEq

/-- A device record as stored in `devices.json`. -/
structure Device where
  id : String
  deviceId : String
  deviceName : String
  ownerName : String
  ownerDisplayName : String
  registeredAt : Int
  lastUpdate : Option Int
  healthData : HealthData
  isOnline : Bool
deriving Repr, DecidableEq

/-- An emergency record as stored in `emergencies.json` and in
`activeEmergencies`. -/
structure Emergency where
  id : String
  deviceId : String
  ownerDisplayName : String
  deviceName : String
  location : HealthLocation
  timestamp : Int
  status : String
  resolvedAt : Option Int
deriving Repr, DecidableEq

/-- Full observable server state: the two JSON files and the in-memory
`activeEmergencies` array. -/
structure ServerState where
  devicesFile : List Device
  emergenciesFile : List Emergency
  activeEmergencies : List Emergency
deriving Repr, DecidableEq

/-- State at process start with freshly initialised files. -/
def initState : ServerState := ⟨[], [], []⟩

/-- Observable side effects of one handler invocation: socket.io broadcasts
and file writes, in program order. -/
inductive Event where
  | newEmergency (e : Emergency)
  | emergencyResolved (id : String)
  | wroteDevices
  | wroteEmergencies
deriving Repr, DecidableEq

/-- Result of one handler invocation: next state, HTTP status code, emitted
events, and the JSON payload (when the handler returns one on success). -/
structure HResult (α : Type) where
  state : ServerState
  status : Nat
  events : List Event
  payload : Option α
deriving Repr

/-- JS `a || b` where `a` is a possibly-absent string field. -/
def jsOrOpt (a : Option String) (b : String) : String :=
  match a with
  | none => b
  | some s => if s = "" then b else s

/-- JS `a || b` on strings that are always present. -/
def jsOrStr (a b : String) : String :=
  if a = "" then b else a

/-- JS `a || b` where `a` is a possibly-absent number field. -/
def jsOrNum (a : Option Rat) (b : Rat) : Rat :=
  match a with
  | none => b
  | some x => if x = 0 then b else x

/-- Replace the first element satisfying `p` by its image under `f` (the
`findIndex` + in-place mutation idiom of the handlers). -/
def updateFirst (p : α → Bool) (f : α → α) : List α → List α
  | [] => []
  | x :: xs => if p x then f x :: xs else x :: updateFirst p f xs

/-- Body of `POST /api/sos` and the `location` body field of
`POST /api/health`. -/
structure LocationReq where
  latitude : Option Rat
  longitude : Option Rat
  address : Option String
deriving Repr, DecidableEq

/-- Request body of `POST /api/sos`. -/
structure SosReq where
  deviceId : Option String
  ownerDisplayName : Option String
  location : Option LocationReq
deriving Repr, DecidableEq

/-- Request body of `POST /api/devices/register`. -/
structure RegisterReq where
  deviceId : Option String
  deviceName : Option String
  ownerName : Option String
  ownerDisplayName : Option String
deriving Repr, DecidableEq

/-- Request body of `POST /api/health`. -/
structure HealthReq where
  deviceId : Option String
  heartRate : Option Int
  steps : Option Int
  battery : Option Int
  location : Option LocationReq
deriving Repr, DecidableEq

/-- Request body of `PUT /api/devices/:deviceId`. -/
structure PutReq where
  deviceName : Option String
  ownerName : Option String
deriving Repr, DecidableEq

/-- The emergency object built by `POST /api/sos` (server.js:166-179) once
validation passed and the device was found. `la`/`lo` are the validated
latitude/longitude values. -/
def newEmergencyRecord (req : SosReq) (loc : LocationReq) (device : Device)
    (did newId : String) (now : Int) (la lo : Rat) : Emergency :=
  { id := newId
    deviceId := did
    ownerDisplayName :=
      jsOrOpt req.ownerDisplayName
        (jsOrStr device.ownerDisplayName (jsOrStr device.ownerName "Usuario"))
    deviceName := device.deviceName
    location :=
      { latitude := la, longitude := lo, address := jsOrOpt loc.address "" }
    timestamp := now
    status := "active"
    resolvedAt := none }

/-- Handler of `POST /api/sos` (server.js:134-200). `newId` is the
`uuidv4()` result, `now` the `new Date()` instant. -/
def sosHandler (s : ServerState) (req : SosReq) (newId : String) (now : Int) :
    HResult Emergency :=
  match req.deviceId with
  | none => ⟨s, 400, [], none⟩
  | some did =>
    if did = "" then ⟨s, 400, [], none⟩
    else
      match req.location with
      | none => ⟨s, 400, [], none⟩
      | some loc =>
        match loc.latitude, loc.longitude with
        | none, _ => ⟨s, 400, [], none⟩
        | some _, none => ⟨s, 400, [], none⟩
        | some la, some lo =>
          if la = 0 ∨ lo = 0 then ⟨s, 400, [], none⟩
          else
            match s.devicesFile.find? (fun d => d.deviceId == did) with
            | none => ⟨s, 404, [], none⟩
            | some device =>
              let e := newEmergencyRecord req loc device did newId now la lo
              ⟨{ s with
                  emergenciesFile := s.emergenciesFile ++ [e]
                  activeEmergencies := s.activeEmergencies ++ [e] },
                200, [Event.wroteEmergencies, Event.newEmergency e], some e⟩

/-- Handler of `GET /api/emergencies` (server.js:203-208). -/
def listEmergenciesHandler (s : ServerState) : HResult (List Emergency) :=
  ⟨s, 200, [], some s.activeEmergencies⟩

/-- Handler of `POST /api/emergencies/:id/resolve` (server.js:211-244).
`nowMem` and `nowFile` are the two successive `new Date()` reads used for
the in-memory and the persisted-log stamp. -/
def resolveHandler (s : ServerState) (id : String) (nowMem nowFile : Int) :
    HResult Unit :=
  match s.activeEmergencies.find? (fun e => e.id == id) with
  | none => ⟨s, 404, [], none⟩
  | some _ =>
    let newActive :=
      updateFirst (fun e => e.id == id)
        (fun e => { e with status := "resolved", resolvedAt := some nowMem })
        s.activeEmergencies
    match s.emergenciesFile.find? (fun e => e.id == id) with
    | none =>
      ⟨{ s with activeEmergencies := newActive },
        200, [Event.emergencyResolved id], some ()⟩
    | some _ =>
      let newFile :=
        updateFirst (fun e => e.id == id)
          (fun e => { e with status := "resolved", resolvedAt := some nowFile })
          s.emergenciesFile
      ⟨{ s with activeEmergencies := newActive, emergenciesFile := newFile },
        200, [Event.wroteEmergencies, Event.emergencyResolved id], some ()⟩

/-- The device object built by `POST /api/devices/register`
(server.js:267-286) once validation and the conflict check passed. -/
def newDeviceRecord (req : RegisterReq) (did dn newId : String) (now : Int) :
    Device :=
  { id := newId
    deviceId := did
    deviceName := dn
    ownerName := jsOrOpt req.ownerName "Adulto Mayor"
    ownerDisplayName :=
      jsOrOpt req.ownerDisplayName (jsOrOpt req.ownerName "Adulto Mayor")
    registeredAt := now
    lastUpdate := none
    healthData :=
      { heartRate := 0, steps := 0, battery := 0
        location := { latitude := 0, longitude := 0, address := "" } }
    isOnline := false }

/-- Handler of `POST /api/devices/register` (server.js:247-303). -/
def registerHandler (s : ServerState) (req : RegisterReq) (newId : String)
    (now : Int) : HResult Device :=
  match req.deviceId, req.deviceName with
  | none, _ => ⟨s, 400, [], none⟩
  | some _, none => ⟨s, 400, [], none⟩
  | some did, some dn =>
    if did = "" ∨ dn = "" then ⟨s, 400, [], none⟩
    else
      match s.devicesFile.find? (fun d => d.deviceId == did) with
      | some _ => ⟨s, 409, [], none⟩
      | none =>
        let d := newDeviceRecord req did dn newId now
        ⟨{ s with devicesFile := s.devicesFile ++ [d] },
          200, [Event.wroteDevices], some d⟩

/-- Field-by-field update applied to the device found by `POST /api/health`
(server.js:326-347). -/
def applyHealth (req : HealthReq) (now : Int) (d : Device) : Device :=
  let d1 : Device := { d with lastUpdate := some now, isOnline := true }
  let d2 : Device :=
    match req.heartRate with
    | some h => { d1 with healthData := { d1.healthData with heartRate := h } }
    | none => d1
  let d3 : Device :=
    match req.steps with
    | some st => { d2 with healthData := { d2.healthData with steps := st } }
    | none => d2
  let d4 : Device :=
    match req.battery with
    | some b => { d3 with healthData := { d3.healthData with battery := b } }
    | none => d3
  match req.location with
  | some loc =>
    { d4 with
        healthData :=
          { d4.healthData with
              location :=
                { latitude := jsOrNum loc.latitude 0
                  longitude := jsOrNum loc.longitude 0
                  address := jsOrOpt loc.address "" } } }
  | none => d4

/-- Handler of `POST /api/health` (server.js:306-360). -/
def healthHandler (s : ServerState) (req : HealthReq) (now : Int) :
    HResult Unit :=
  match req.deviceId with
  | none => ⟨s, 400, [], none⟩
  | some did =>
    if did = "" then ⟨s, 400, [], none⟩
    else
      match s.devicesFile.find? (fun d => d.deviceId == did) with
      | none => ⟨s, 404, [], none⟩
      | some _ =>
        ⟨{ s with
            devicesFile :=
              updateFirst (fun d => d.deviceId == did) (applyHealth req now)
                s.devicesFile },
          200, [Event.wroteDevices], some ()⟩

/-- Presence recomputation applied to each record on read: `isOnline` is
reassigned only when `lastUpdate` is non-null (server.js:367-373 and
397-402): `diffMinutes = (now - lastUpdate) / 1000 / 60 < 2`. -/
def refreshOnline (now : Int) (d : Device) : Device :=
  match d.lastUpdate with
  | none => d
  | some lu =>
    { d with isOnline := decide ((((now - lu : Int) : Rat)) / 1000 / 60 < 2) }

/-- Handler of `GET /api/devices` (server.js:363-381): recomputes presence
and persists the whole store before responding. -/
def listDevicesHandler (s : ServerState) (now : Int) :
    HResult (List Device) :=
  let ds := s.devicesFile.map (refreshOnline now)
  ⟨{ s with devicesFile := ds }, 200, [Event.wroteDevices], some ds⟩

/-- Handler of `GET /api/devices/:deviceId` (server.js:384-408): recomputes
presence on the returned copy only, never writes. -/
def getDeviceHandler (s : ServerState) (deviceId : String) (now : Int) :
    HResult Device :=
  match s.devicesFile.find? (fun d => d.deviceId == deviceId) with
  | none => ⟨s, 404, [], none⟩
  | some d => ⟨s, 200, [], some (refreshOnline now d)⟩

/-- Handler of `DELETE /api/devices/:deviceId` (server.js:411-437):
`findIndex` + `splice(index, 1)` removes the first matching record. -/
def deleteDeviceHandler (s : ServerState) (deviceId : String) :
    HResult Unit :=
  match s.devicesFile.find? (fun d => d.deviceId == deviceId) with
  | none => ⟨s, 404, [], none⟩
  | some _ =>
    ⟨{ s with
        devicesFile := s.devicesFile.eraseP (fun d => d.deviceId == deviceId) },
      200, [Event.wroteDevices], some ()⟩

/-- Field update of `PUT /api/devices/:deviceId` (server.js:454-460): only
truthy provided fields are applied. -/
def applyPut (req : PutReq) (d : Device) : Device :=
  let d1 : Device :=
    match req.deviceName with
    | some dn => if dn = "" then d else { d with deviceName := dn }
    | none => d
  match req.ownerName with
  | some onm => if onm = "" then d1 else { d1 with ownerName := onm }
  | none => d1

/-- Handler of `PUT /api/devices/:deviceId` (server.js:440-474). -/
def putDeviceHandler (s : ServerState) (deviceId : String) (req : PutReq) :
    HResult Device :=
  match s.devicesFile.find? (fun d => d.deviceId == deviceId) with
  | none => ⟨s, 404, [], none⟩
  | some _ =>
    let ds := updateFirst (fun d => d.deviceId == deviceId) (applyPut req)
      s.devicesFile
    ⟨{ s with devicesFile := ds },
      200, [Event.wroteDevices], ds.find? (fun d => d.deviceId == deviceId)⟩

/-- One API request: the state transition of any of the mutating or reading
handlers, with arbitrary request data, fresh ids and clock reads. -/
inductive Step : ServerState → ServerState → Prop where
  | sos (s : ServerState) (req : SosReq) (newId : String) (now : Int) :
      Step s (sosHandler s req newId now).state
  | listEmergencies (s : ServerState) :
      Step s (listEmergenciesHandler s).state
  | resolve (s : ServerState) (id : String) (nowMem nowFile : Int) :
      Step s (resolveHandler s id nowMem nowFile).state
  | register (s : ServerState) (req : RegisterReq) (newId : String) (now : Int) :
      Step s (registerHandler s req newId now).state
  | health (s : ServerState) (req : HealthReq) (now : Int) :
      Step s (healthHandler s req now).state
  | listDevices (s : ServerState) (now : Int) :
      Step s (listDevicesHandler s now).state
  | getDevice (s : ServerState) (deviceId : String) (now : Int) :
      Step s (getDeviceHandler s deviceId now).state
  | deleteDevice (s : ServerState) (deviceId : String) :
      Step s (deleteDeviceHandler s deviceId).state
  | putDevice (s : ServerState) (deviceId : String) (req : PutReq) :
      Step s (putDeviceHandler s deviceId req).state

/-- States reachable from process start by any sequence of API requests. -/
inductive Reachable : ServerState → Prop where
  | init : Reachable initState
  | step {s s' : ServerState} : Reachable s → Step s s' → Reachable s'

/-- The spec's Presence Evaluator, formalised from its words:
`isOnline(lastUpdate, now) = lastUpdate != null AND (now - lastUpdate) < 2
minutes` (2 minutes = 120000 ms). -/
def isOnlineSpec (lastUpdate : Option Int) (now : Int) : Bool :=
  match lastUpdate with
  | none => false
  | some lu => decide (now - lu < 120000)

/-- Recogniser for `new_emergency` broadcasts among a handler's events. -/
def isNewEmergencyEvt : Event → Bool
  | Event.newEmergency _ => true
  | _ => false

/-- Recogniser for `emergency_resolved` broadcasts among a handler's
events. -/
def isResolvedEvt : Event → Bool
  | Event.emergencyResolved _ => true
  | _ => false

/-! ### Generic lemmas about `updateFirst`, `find?` and `eraseP` -/

theorem updateFirst_of_find?_none {α : Type} {p : α → Bool} {f : α → α}
    {l : List α} (h : l.find? p = none) : updateFirst p f l = l := by
  induction l with
  | nil => rfl
  | cons x xs ih =>
    rw [List.find?_cons] at h
    cases hx : p x with
    | true => simp [hx] at h
    | false =>
      rw [hx] at h
      simp [updateFirst, hx, ih h]

theorem updateFirst_decomp {α : Type} {p : α → Bool} (f : α → α)
    {l : List α} {a : α} (h : l.find? p = some a) :
    ∃ l₁ l₂, l = l₁ ++ a :: l₂ ∧ (∀ x ∈ l₁, p x = false) ∧
      updateFirst p f l = l₁ ++ f a :: l₂ := by
  induction l with
  | nil => simp at h
  | cons x xs ih =>
    rw [List.find?_cons] at h
    cases hx : p x with
    | true =>
      rw [hx] at h
      injection h with h
      subst h
      exact ⟨[], xs, rfl, by simp, by simp [updateFirst, hx]⟩
    | false =>
      rw [hx] at h
      obtain ⟨l₁, l₂, hl, hfalse, hupd⟩ := ih h
      refine ⟨x :: l₁, l₂, by rw [hl]; rfl, ?_, ?_⟩
      · intro y hy
        rcases List.mem_cons.mp hy with hxy | hmem
        · rw [hxy]; exact hx
        · exact hfalse y hmem
      · simp [updateFirst, hx, hupd]

theorem length_updateFirst {α : Type} (p : α → Bool) (f : α → α)
    (l : List α) : (updateFirst p f l).length = l.length := by
  induction l with
  | nil => rfl
  | cons x xs ih =>
    by_cases hx : p x = true
    · simp [updateFirst, hx]
    · simp only [updateFirst, Bool.not_eq_true] at hx ⊢
      rw [hx]
      simp [ih]

theorem map_updateFirst {α β : Type} {p : α → Bool} {f : α → α} {g : α → β}
    (hg : ∀ x, g (f x) = g x) (l : List α) :
    (updateFirst p f l).map g = l.map g := by
  induction l with
  | nil => rfl
  | cons x xs ih =>
    by_cases hx : p x = true
    · simp [updateFirst, hx, hg]
    · simp only [updateFirst, Bool.not_eq_true] at hx ⊢
      rw [hx]
      simp [ih]

theorem mem_updateFirst {α : Type} {p : α → Bool} {f : α → α} {l : List α}
    {x : α} (h : x ∈ updateFirst p f l) : x ∈ l ∨ ∃ y, y ∈ l ∧ x = f y := by
  induction l with
  | nil => simp [updateFirst] at h
  | cons z zs ih =>
    rw [updateFirst] at h
    by_cases hz : p z = true
    · rw [if_pos hz] at h
      rcases List.mem_cons.mp h with hx | hx
      · exact Or.inr ⟨z, List.mem_cons_self z zs, hx⟩
      · exact Or.inl (List.mem_cons_of_mem z hx)
    · rw [if_neg hz] at h
      rcases List.mem_cons.mp h with hx | hx
      · exact Or.inl (hx ▸ List.mem_cons_self z zs)
      · rcases ih hx with hmem | ⟨y, hy, hxy⟩
        · exact Or.inl (List.mem_cons_of_mem z hmem)
        · exact Or.inr ⟨y, List.mem_cons_of_mem z hy, hxy⟩

theorem find?_append_cons {α : Type} {p : α → Bool} {l₁ l₂ : List α} {b : α}
    (h1 : ∀ x ∈ l₁, p x = false) (hb : p b = true) :
    (l₁ ++ b :: l₂).find? p = some b := by
  induction l₁ with
  | nil => simp [List.find?_cons, hb]
  | cons x xs ih =>
    have hx : p x = false := h1 x (List.mem_cons_self x xs)
    simp only [List.cons_append, List.find?_cons, hx]
    exact ih fun y hy => h1 y (List.mem_cons_of_mem x hy)

theorem find?_eraseP_none {l : List Device} {did : String}
    (h : (l.map Device.deviceId).Nodup) :
    (l.eraseP (fun d => d.deviceId == did)).find?
      (fun d => d.deviceId == did) = none := by
  induction l with
  | nil => rfl
  | cons d ds ih =>
    simp only [List.map_cons, List.nodup_cons] at h
    obtain ⟨hnotmem, hnd⟩ := h
    by_cases hd : (d.deviceId == did) = true
    · rw [List.eraseP_cons, hd, cond_true]
      rw [List.find?_eq_none]
      intro x hx hpx
      apply hnotmem
      rw [beq_iff_eq] at hd hpx
      rw [← hpx] at hd
      exact hd ▸ List.mem_map_of_mem Device.deviceId hx
    · simp only [Bool.not_eq_true] at hd
      rw [List.eraseP_cons, hd, cond_false, List.find?_cons, hd]
      exact ih hnd

/-! ### Frame lemmas for the per-device update functions -/

theorem applyHealth_deviceId (req : HealthReq) (now : Int) (d : Device) :
    (applyHealth req now d).deviceId = d.deviceId := by
  obtain ⟨rdid, rhr, rst, rba, rloc⟩ := req
  cases rhr <;> cases rst <;> cases rba <;> cases rloc <;> rfl

theorem applyHealth_lastUpdate (req : HealthReq) (now : Int) (d : Device) :
    (applyHealth req now d).lastUpdate = some now := by
  obtain ⟨rdid, rhr, rst, rba, rloc⟩ := req
  cases rhr <;> cases rst <;> cases rba <;> cases rloc <;> rfl

theorem applyPut_deviceId (req : PutReq) (d : Device) :
    (applyPut req d).deviceId = d.deviceId := by
  obtain ⟨rdn, ron⟩ := req
  cases rdn <;> cases ron <;> simp only [applyPut] <;> split_ifs <;> rfl

theorem applyPut_lastUpdate (req : PutReq) (d : Device) :
    (applyPut req d).lastUpdate = d.lastUpdate := by
  obtain ⟨rdn, ron⟩ := req
  cases rdn <;> cases ron <;> simp only [applyPut] <;> split_ifs <;> rfl

theorem applyPut_isOnline (req : PutReq) (d : Device) :
    (applyPut req d).isOnline = d.isOnline := by
  obtain ⟨rdn, ron⟩ := req
  cases rdn <;> cases ron <;> simp only [applyPut] <;> split_ifs <;> rfl

theorem refreshOnline_deviceId (now : Int) (d : Device) :
    (refreshOnline now d).deviceId = d.deviceId := by
  cases h : d.lastUpdate <;> simp [refreshOnline, h]

theorem refreshOnline_lastUpdate (now : Int) (d : Device) :
    (refreshOnline now d).lastUpdate = d.lastUpdate := by
  cases h : d.lastUpdate <;> simp [refreshOnline, h]

/-! ### State-component frame lemmas for the handlers -/

theorem sosHandler_devicesFile (s : ServerState) (req : SosReq)
    (newId : String) (now : Int) :
    (sosHandler s req newId now).state.devicesFile = s.devicesFile := by
  unfold sosHandler
  (repeat' split) <;> rfl

theorem resolveHandler_devicesFile (s : ServerState) (id : String)
    (nowMem nowFile : Int) :
    (resolveHandler s id nowMem nowFile).state.devicesFile = s.devicesFile := by
  unfold resolveHandler
  (repeat' split) <;> rfl

theorem getDeviceHandler_state (s : ServerState) (deviceId : String)
    (now : Int) : (getDeviceHandler s deviceId now).state = s := by
  unfold getDeviceHandler
  split <;> rfl

theorem listEmergenciesHandler_state (s : ServerState) :
    (listEmergenciesHandler s).state = s := rfl

theorem deleteDeviceHandler_emergencies (s : ServerState) (deviceId : String) :
    (deleteDeviceHandler s deviceId).state.emergenciesFile
        = s.emergenciesFile ∧
      (deleteDeviceHandler s deviceId).state.activeEmergencies
        = s.activeEmergencies := by
  unfold deleteDeviceHandler
  split <;> exact ⟨rfl, rfl⟩

/-! ### Case analyses of the mutating device handlers -/

theorem registerHandler_cases (s : ServerState) (req : RegisterReq)
    (newId : String) (now : Int) :
    (registerHandler s req newId now).state = s ∨
    ∃ did dn, req.deviceId = some did ∧ req.deviceName = some dn ∧
      ¬(did = "" ∨ dn = "") ∧
      s.devicesFile.find? (fun d => d.deviceId == did) = none ∧
      (registerHandler s req newId now).state
        = { s with
            devicesFile := s.devicesFile ++ [newDeviceRecord req did dn newId now] } := by
  rcases hdid : req.deviceId with _ | did
  · left; simp [registerHandler, hdid]
  rcases hdn : req.deviceName with _ | dn
  · left; simp [registerHandler, hdid, hdn]
  by_cases hempty : did = "" ∨ dn = ""
  · left; simp [registerHandler, hdid, hdn, hempty]
  rcases hfind : s.devicesFile.find? (fun d => d.deviceId == did) with _ | d0
  · right
    exact ⟨did, dn, rfl, rfl, hempty,
      hfind, by simp [registerHandler, hdid, hdn, hempty, hfind]⟩
  · left; simp [registerHandler, hdid, hdn, hempty, hfind]

theorem healthHandler_cases (s : ServerState) (req : HealthReq) (now : Int) :
    (healthHandler s req now).state = s ∨
    ∃ did, req.deviceId = some did ∧ did ≠ "" ∧
      (∃ d0, s.devicesFile.find? (fun d => d.deviceId == did) = some d0) ∧
      (healthHandler s req now).state
        = { s with
            devicesFile :=
              updateFirst (fun d => d.deviceId == did) (applyHealth req now)
                s.devicesFile } := by
  rcases hdid : req.deviceId with _ | did
  · left; simp [healthHandler, hdid]
  by_cases hempty : did = ""
  · left; simp [healthHandler, hdid, hempty]
  rcases hfind : s.devicesFile.find? (fun d => d.deviceId == did) with _ | d0
  · left; simp [healthHandler, hdid, hempty, hfind]
  · right
    exact ⟨did, rfl, hempty, ⟨d0, hfind⟩,
      by simp [healthHandler, hdid, hempty, hfind]⟩

theorem putDeviceHandler_cases (s : ServerState) (deviceId : String)
    (req : PutReq) :
    (putDeviceHandler s deviceId req).state = s ∨
    (putDeviceHandler s deviceId req).state
      = { s with
          devicesFile :=
            updateFirst (fun d => d.deviceId == deviceId) (applyPut req)
              s.devicesFile } := by
  rcases hfind : s.devicesFile.find? (fun d => d.deviceId == deviceId)
    with _ | d0
  · left; simp [putDeviceHandler, hfind]
  · right; simp [putDeviceHandler, hfind]

theorem deleteDeviceHandler_devicesFile_sublist (s : ServerState)
    (deviceId : String) :
    List.Sublist (deleteDeviceHandler s deviceId).state.devicesFile
      s.devicesFile := by
  unfold deleteDeviceHandler
  split
  · exact List.Sublist.refl _
  · exact List.eraseP_sublist _

theorem healthHandler_devicesFile_map (s : ServerState) (req : HealthReq)
    (now : Int) :
    (healthHandler s req now).state.devicesFile.map Device.deviceId
      = s.devicesFile.map Device.deviceId := by
  rcases healthHandler_cases s req now with hs | ⟨did, _, _, _, hs⟩
  · rw [hs]
  · rw [hs]
    exact map_updateFirst (applyHealth_deviceId req now) s.devicesFile

theorem putDeviceHandler_devicesFile_map (s : ServerState) (deviceId : String)
    (req : PutReq) :
    (putDeviceHandler s deviceId req).state.devicesFile.map Device.deviceId
      = s.devicesFile.map Device.deviceId := by
  rcases putDeviceHandler_cases s deviceId req with hs | hs
  · rw [hs]
  · rw [hs]
    exact map_updateFirst (applyPut_deviceId req) s.devicesFile

theorem listDevicesHandler_devicesFile (s : ServerState) (now : Int) :
    (listDevicesHandler s now).state.devicesFile
      = s.devicesFile.map (refreshOnline now) := rfl

theorem listDevicesHandler_devicesFile_map (s : ServerState) (now : Int) :
    (listDevicesHandler s now).state.devicesFile.map Device.deviceId
      = s.devicesFile.map Device.deviceId := by
  rw [listDevicesHandler_devicesFile, List.map_map]
  exact List.map_congr_left fun d _ => refreshOnline_deviceId now d

/-! ### Reachability invariants -/

/-- In every reachable state the `deviceId` values in the device store are
pairwise distinct. -/
theorem reachable_deviceIds_nodup {s : ServerState} (h : Reachable s) :
    (s.devicesFile.map Device.deviceId).Nodup := by
  induction h with
  | init => simp [initState]
  | @step s s' hr hstep ih =>
    cases hstep with
    | sos req newId now => rw [sosHandler_devicesFile]; exact ih
    | listEmergencies => rw [listEmergenciesHandler_state]; exact ih
    | resolve id nowMem nowFile => rw [resolveHandler_devicesFile]; exact ih
    | register req newId now =>
      rcases registerHandler_cases s req newId now with hs |
        ⟨did, dn, _, _, _, hfind, hs⟩
      · rw [hs]; exact ih
      · rw [hs]
        simp only [List.map_append]
        apply List.Nodup.append ih (List.nodup_singleton _)
        intro a ha hb
        rw [List.mem_singleton] at hb
        rcases List.mem_map.mp ha with ⟨d, hd, hda⟩
        have hfalse := List.find?_eq_none.mp hfind d hd
        apply hfalse
        rw [beq_iff_eq, hda, hb]
        rfl
    | health req now => rw [healthHandler_devicesFile_map]; exact ih
    | listDevices now => rw [listDevicesHandler_devicesFile_map]; exact ih
    | getDevice deviceId now => rw [getDeviceHandler_state]; exact ih
    | deleteDevice deviceId =>
      exact ih.sublist
        ((deleteDeviceHandler_devicesFile_sublist s deviceId).map _)
    | putDevice deviceId req => rw [putDeviceHandler_devicesFile_map]; exact ih

/-- In every reachable state a device that never received telemetry
(`lastUpdate` null) is stored with `isOnline = false`, so the stored flag
agrees with the Presence Evaluator even on the branch the read handlers do
not recompute. -/
theorem reachable_offline_of_no_update {s : ServerState} (h : Reachable s) :
    ∀ d ∈ s.devicesFile, d.lastUpdate = none → d.isOnline = false := by
  induction h with
  | init => intro d hd; simp [initState] at hd
  | @step s s' hr hstep ih =>
    cases hstep with
    | sos req newId now =>
      intro d hd
      rw [sosHandler_devicesFile] at hd
      exact ih d hd
    | listEmergencies =>
      intro d hd
      rw [listEmergenciesHandler_state] at hd
      exact ih d hd
    | resolve id nowMem nowFile =>
      intro d hd
      rw [resolveHandler_devicesFile] at hd
      exact ih d hd
    | register req newId now =>
      intro d hd hnull
      rcases registerHandler_cases s req newId now with hs |
        ⟨did, dn, _, _, _, _, hs⟩
      · rw [hs] at hd; exact ih d hd hnull
      · rw [hs] at hd
        rcases List.mem_append.mp hd with hmem | hnew
        · exact ih d hmem hnull
        · rw [List.mem_singleton] at hnew
          rw [hnew]; rfl
    | health req now =>
      intro d hd hnull
      rcases healthHandler_cases s req now with hs | ⟨did, _, _, _, hs⟩
      · rw [hs] at hd; exact ih d hd hnull
      · rw [hs] at hd
        rcases mem_updateFirst hd with hmem | ⟨y, _, hdy⟩
        · exact ih d hmem hnull
        · rw [hdy, applyHealth_lastUpdate] at hnull
          exact absurd hnull (by simp)
    | listDevices now =>
      intro d hd hnull
      rw [listDevicesHandler_devicesFile] at hd
      rcases List.mem_map.mp hd with ⟨y, hy, hdy⟩
      rcases hlu : y.lastUpdate with _ | lu
      · have : d = y := by rw [← hdy]; unfold refreshOnline; rw [hlu]
        rw [this]
        exact ih y hy (this ▸ hlu)
      · rw [← hdy, refreshOnline_lastUpdate, hlu] at hnull
        exact absurd hnull (by simp)
    | getDevice deviceId now =>
      intro d hd
      rw [getDeviceHandler_state] at hd
      exact ih d hd
    | deleteDevice deviceId =>
      intro d hd
      exact ih d
        ((deleteDeviceHandler_devicesFile_sublist s deviceId).mem hd)
    | putDevice deviceId req =>
      intro d hd hnull
      rcases putDeviceHandler_cases s deviceId req with hs | hs
      · rw [hs] at hd; exact ih d hd hnull
      · rw [hs] at hd
        rcases mem_updateFirst hd with hmem | ⟨y, hy, hdy⟩
        · exact ih d hmem hnull
        · rw [hdy, applyPut_isOnline]
          rw [hdy, applyPut_lastUpdate] at hnull
          exact ih y hy hnull

/-! ### Emergency-handler helper lemmas -/

theorem find?_updateFirst_self {α : Type} {p : α → Bool} {l : List α} {e : α}
    (f : α → α) (hpf : ∀ x, p (f x) = p x) (h : l.find? p = some e) :
    (updateFirst p f l).find? p = some (f e) := by
  obtain ⟨l₁, l₂, _, hfalse, hupd⟩ := updateFirst_decomp f h
  rw [hupd]
  exact find?_append_cons hfalse (by rw [hpf]; exact List.find?_some h)

theorem sosHandler_active (s : ServerState) (req : SosReq) (newId : String)
    (now : Int) :
    (sosHandler s req newId now).state.activeEmergencies
        = s.activeEmergencies ∨
      ∃ e, (sosHandler s req newId now).state.activeEmergencies
        = s.activeEmergencies ++ [e] := by
  unfold sosHandler
  (repeat' split) <;> first | exact Or.inl rfl | exact Or.inr ⟨_, rfl⟩

theorem resolveHandler_of_found (s : ServerState) (id : String)
    (nowMem nowFile : Int) (e : Emergency)
    (h : s.activeEmergencies.find? (fun x => x.id == id) = some e) :
    (resolveHandler s id nowMem nowFile).status = 200 ∧
      (resolveHandler s id nowMem nowFile).state.activeEmergencies
        = updateFirst (fun x => x.id == id)
            (fun x => { x with status := "resolved", resolvedAt := some nowMem })
            s.activeEmergencies ∧
      ((s.emergenciesFile.find? (fun x => x.id == id) = none ∧
          (resolveHandler s id nowMem nowFile).state.emergenciesFile
            = s.emergenciesFile ∧
          (resolveHandler s id nowMem nowFile).events
            = [Event.emergencyResolved id]) ∨
        (∃ fe, s.emergenciesFile.find? (fun x => x.id == id) = some fe ∧
          (resolveHandler s id nowMem nowFile).state.emergenciesFile
            = updateFirst (fun x => x.id == id)
                (fun x =>
                  { x with status := "resolved", resolvedAt := some nowFile })
                s.emergenciesFile ∧
          (resolveHandler s id nowMem nowFile).events
            = [Event.wroteEmergencies, Event.emergencyResolved id])) := by
  rcases hfile : s.emergenciesFile.find? (fun x => x.id == id) with _ | fe
  · refine ⟨?_, ?_, Or.inl ⟨hfile, ?_, ?_⟩⟩ <;>
      simp [resolveHandler, h, hfile]
  · refine ⟨?_, ?_, Or.inr ⟨fe, hfile, ?_, ?_⟩⟩ <;>
      simp [resolveHandler, h, hfile]

theorem resolveHandler_of_missing (s : ServerState) (id : String)
    (nowMem nowFile : Int)
    (h : s.activeEmergencies.find? (fun x => x.id == id) = none) :
    resolveHandler s id nowMem nowFile = ⟨s, 404, [], none⟩ := by
  simp [resolveHandler, h]

theorem resolveHandler_active_ids (s : ServerState) (id : String)
    (nowMem nowFile : Int) :
    (resolveHandler s id nowMem nowFile).state.activeEmergencies.map
        Emergency.id
      = s.activeEmergencies.map Emergency.id := by
  rcases h : s.activeEmergencies.find? (fun x => x.id == id) with _ | e
  · rw [resolveHandler_of_missing s id nowMem nowFile h]
  · rw [(resolveHandler_of_found s id nowMem nowFile e h).2.1]
    apply map_updateFirst
    intro x
    rfl

/-! ### Claim C9 -/

/-- C9: `GET /api/devices` persists the store with the recomputed `isOnline`
flags back to the device store file (a `writeData` happens on every listing),
while `GET /api/devices/:deviceId` leaves the whole state — in particular
the device store file — unchanged and performs no write at all. -/
theorem list_persists_get_is_readonly :
    ∀ (s : ServerState) (deviceId : String) (now : Int),
      (listDevicesHandler s now).state.devicesFile
          = s.devicesFile.map (refreshOnline now) ∧
        Event.wroteDevices ∈ (listDevicesHandler s now).events ∧
        (getDeviceHandler s deviceId now).state = s ∧
        Event.wroteDevices ∉ (getDeviceHandler s deviceId now).events ∧
        Event.wroteEmergencies ∉ (getDeviceHandler s deviceId now).events := by
  intro s deviceId now
  refine ⟨rfl, ?_, getDeviceHandler_state s deviceId now, ?_, ?_⟩
  · simp [listDevicesHandler]
  · unfold getDeviceHandler
    split <;> simp
  · unfold getDeviceHandler
    split <;> simp

/-! ### Claim C7 -/

/-- C7: `GET /api/emergencies` returns the whole in-memory list with no
status filter; `Resolve` keeps the list the same length (it mutates the
entry in place), and no operation of the API ever removes an id from the
in-memory list. -/
theorem list_active_unfiltered_never_pruned :
    ∀ (s s' : ServerState) (id : String) (nowMem nowFile : Int),
      (listEmergenciesHandler s).payload = some s.activeEmergencies ∧
        (resolveHandler s id nowMem nowFile).state.activeEmergencies.length
          = s.activeEmergencies.length ∧
        (Step s s' → ∀ e ∈ s.activeEmergencies,
          ∃ e' ∈ s'.activeEmergencies, e'.id = e.id) := by
  intro s s' id nowMem nowFile
  refine ⟨rfl, ?_, ?_⟩
  · have h := congrArg List.length (resolveHandler_active_ids s id nowMem nowFile)
    simpa using h
  · intro hstep e he
    have hid : e.id ∈ s'.activeEmergencies.map Emergency.id → _ :=
      fun hm => List.mem_map.mp hm
    have base : e.id ∈ s.activeEmergencies.map Emergency.id :=
      List.mem_map_of_mem Emergency.id he
    have key : e.id ∈ s'.activeEmergencies.map Emergency.id := by
      cases hstep with
      | sos req newId now =>
        rcases sosHandler_active s req newId now with ha | ⟨e0, ha⟩
        · rw [ha]; exact base
        · rw [ha, List.map_append]
          exact List.mem_append_left _ base
      | listEmergencies => rw [listEmergenciesHandler_state]; exact base
      | resolve rid rMem rFile =>
        rw [resolveHandler_active_ids]; exact base
      | register req newId now =>
        rcases registerHandler_cases s req newId now with hs |
          ⟨did, dn, _, _, _, _, hs⟩ <;> rw [hs] <;> exact base
      | health req now =>
        rcases healthHandler_cases s req now with hs | ⟨did, _, _, _, hs⟩ <;>
          rw [hs] <;> exact base
      | listDevices now => exact base
      | getDevice deviceId now => rw [getDeviceHandler_state]; exact base
      | deleteDevice deviceId =>
        rw [(deleteDeviceHandler_emergencies s deviceId).2]; exact base
      | putDevice deviceId req =>
        rcases putDeviceHandler_cases s deviceId req with hs | hs <;>
          rw [hs] <;> exact base
    rcases List.mem_map.mp key with ⟨e', he', heq⟩
    exact ⟨e', he', heq⟩

/-- C7 witness: concrete run of the hypothesis-bearing conjunct at a
one-emergency state and a `resolve` step. -/
theorem list_active_unfiltered_never_pruned_witness :
    ∃ e', e' ∈ (resolveHandler
        ⟨[], [], [⟨"e1", "D1", "Ana", "Reloj", ⟨10, 20, ""⟩, 0, "active", none⟩]⟩
        "e1" 5 5).state.activeEmergencies ∧
      e'.id = "e1" := by
  have h := (list_active_unfiltered_never_pruned
      ⟨[], [], [⟨"e1", "D1", "Ana", "Reloj", ⟨10, 20, ""⟩, 0, "active", none⟩]⟩
      (resolveHandler
        ⟨[], [], [⟨"e1", "D1", "Ana", "Reloj", ⟨10, 20, ""⟩, 0, "active", none⟩]⟩
        "e1" 5 5).state
      "e1" 5 5).2.2
      (Step.resolve _ "e1" 5 5)
      ⟨"e1", "D1", "Ana", "Reloj", ⟨10, 20, ""⟩, 0, "active", none⟩
      (List.mem_singleton.mpr rfl)
  exact h

/-! ### Claim C3 -/

/-- C3: `POST /api/emergencies/:id/resolve` fails 404 exactly when the id is
absent from the in-memory list. On success (with `now` the clock read of the
request) the matching in-memory entry, and the matching persisted-log entry
when one exists, are set to status "resolved" with `resolvedAt = now`
(non-null), and exactly one `emergency_resolved` broadcast carrying the id
is emitted. Nothing is conditioned on the previous status, so resolving an
already-resolved id succeeds again and re-stamps `resolvedAt`. -/
theorem resolve_resolves_and_broadcasts_once :
    ∀ (s : ServerState) (id : String) (now : Int),
      ((resolveHandler s id now now).status = 404 ↔
        s.activeEmergencies.find? (fun x => x.id == id) = none) ∧
      (∀ e, s.activeEmergencies.find? (fun x => x.id == id) = some e →
        (resolveHandler s id now now).status = 200 ∧
        (resolveHandler s id now now).state.activeEmergencies.find?
            (fun x => x.id == id)
          = some { e with status := "resolved", resolvedAt := some now } ∧
        (∀ fe, s.emergenciesFile.find? (fun x => x.id == id) = some fe →
          (resolveHandler s id now now).state.emergenciesFile.find?
              (fun x => x.id == id)
            = some { fe with status := "resolved", resolvedAt := some now }) ∧
        (resolveHandler s id now now).events.filter isResolvedEvt
          = [Event.emergencyResolved id]) := by
  intro s id now
  constructor
  · rcases h : s.activeEmergencies.find? (fun x => x.id == id) with _ | e
    · rw [resolveHandler_of_missing s id now now h]
      exact ⟨fun _ => h, fun _ => rfl⟩
    · have h200 := (resolveHandler_of_found s id now now e h).1
      constructor
      · intro h404
        rw [h200] at h404
        exact absurd h404 (by decide)
      · intro hnone
        rw [hnone] at h
        exact absurd h (by simp)
  · intro e he
    obtain ⟨h200, hactive, hrest⟩ := resolveHandler_of_found s id now now e he
    refine ⟨h200, ?_, ?_, ?_⟩
    · rw [hactive]
      exact find?_updateFirst_self _ (fun _ => rfl) he
    · intro fe hfe
      rcases hrest with ⟨hnone, _, _⟩ | ⟨fe', hfe', hfile, _⟩
      · rw [hnone] at hfe
        exact absurd hfe (by simp)
      · rw [hfe'] at hfe
        injection hfe with hfe
        rw [hfile, ← hfe]
        exact find?_updateFirst_self _ (fun _ => rfl) hfe'
    · rcases hrest with ⟨_, _, hev⟩ | ⟨fe', _, _, hev⟩ <;>
        rw [hev] <;> simp [isResolvedEvt]

/-- C3 witness: resolving the single active emergency of a concrete state
(present in memory and in the log) at time 7. -/
theorem resolve_resolves_and_broadcasts_once_witness :
    (resolveHandler
        ⟨[], [⟨"e1", "D1", "Ana", "Reloj", ⟨10, 20, ""⟩, 0, "active", none⟩],
          [⟨"e1", "D1", "Ana", "Reloj", ⟨10, 20, ""⟩, 0, "active", none⟩]⟩
        "e1" 7 7).status = 200 ∧
      (resolveHandler
        ⟨[], [⟨"e1", "D1", "Ana", "Reloj", ⟨10, 20, ""⟩, 0, "active", none⟩],
          [⟨"e1", "D1", "Ana", "Reloj", ⟨10, 20, ""⟩, 0, "active", none⟩]⟩
        "e1" 7 7).state.activeEmergencies.find? (fun x => x.id == "e1")
        = some ⟨"e1", "D1", "Ana", "Reloj", ⟨10, 20, ""⟩, 0, "resolved",
            some 7⟩ := by
  have h := (resolve_resolves_and_broadcasts_once
      ⟨[], [⟨"e1", "D1", "Ana", "Reloj", ⟨10, 20, ""⟩, 0, "active", none⟩],
        [⟨"e1", "D1", "Ana", "Reloj", ⟨10, 20, ""⟩, 0, "active", none⟩]⟩
      "e1" 7).2
      ⟨"e1", "D1", "Ana", "Reloj", ⟨10, 20, ""⟩, 0, "active", none⟩
      (by decide)
  exact ⟨h.1, h.2.1⟩

/-! ### Claim C10 -/

/-- C10: when the id is found in the in-memory list but not in the persisted
log, `Resolve` still answers 200, emits the `emergency_resolved` broadcast
as its only event (in particular no file write), leaves the persisted log
untouched, and re-stamps only the in-memory entry; when the id is in both,
the in-memory stamp comes from the first clock read (`nowMem`) and the
persisted stamp from the second (`nowFile`), so the two stamps need not be
equal. -/
theorem resolve_skips_log_when_absent :
    ∀ (s : ServerState) (id : String) (nowMem nowFile : Int),
      (∀ e, s.activeEmergencies.find? (fun x => x.id == id) = some e →
        s.emergenciesFile.find? (fun x => x.id == id) = none →
          (resolveHandler s id nowMem nowFile).status = 200 ∧
          (resolveHandler s id nowMem nowFile).events
            = [Event.emergencyResolved id] ∧
          (resolveHandler s id nowMem nowFile).state.emergenciesFile
            = s.emergenciesFile ∧
          (resolveHandler s id nowMem nowFile).state.activeEmergencies.find?
              (fun x => x.id == id)
            = some { e with status := "resolved", resolvedAt := some nowMem }) ∧
      (∀ e fe, s.activeEmergencies.find? (fun x => x.id == id) = some e →
        s.emergenciesFile.find? (fun x => x.id == id) = some fe →
          (resolveHandler s id nowMem nowFile).state.activeEmergencies.find?
              (fun x => x.id == id)
            = some { e with status := "resolved", resolvedAt := some nowMem } ∧
          (resolveHandler s id nowMem nowFile).state.emergenciesFile.find?
              (fun x => x.id == id)
            = some { fe with status := "resolved", resolvedAt := some nowFile }) := by
  intro s id nowMem nowFile
  constructor
  · intro e he hnofile
    obtain ⟨h200, hactive, hrest⟩ := resolveHandler_of_found s id nowMem nowFile e he
    rcases hrest with ⟨_, hfile, hev⟩ | ⟨fe', hfe', _, _⟩
    · refine ⟨h200, hev, hfile, ?_⟩
      rw [hactive]
      exact find?_updateFirst_self _ (fun _ => rfl) he
    · rw [hnofile] at hfe'
      exact absurd hfe' (by simp)
  · intro e fe he hfe
    obtain ⟨_, hactive, hrest⟩ := resolveHandler_of_found s id nowMem nowFile e he
    rcases hrest with ⟨hnone, _, _⟩ | ⟨fe', hfe', hfile, _⟩
    · rw [hnone] at hfe
      exact absurd hfe (by simp)
    · rw [hfe'] at hfe
      injection hfe with hfe
      refine ⟨?_, ?_⟩
      · rw [hactive]
        exact find?_updateFirst_self _ (fun _ => rfl) he
      · rw [hfile, ← hfe]
        exact find?_updateFirst_self _ (fun _ => rfl) hfe'

/-- C10 witness: first at a state whose emergency exists only in memory
(clock reads 3 and 9): success, a lone broadcast, log untouched; then at a
state whose emergency is in both, yielding the two distinct stamps 3 and
9. -/
theorem resolve_skips_log_when_absent_witness :
    ((resolveHandler ⟨[], [],
        [⟨"e1", "D1", "Ana", "Reloj", ⟨10, 20, ""⟩, 0, "active", none⟩]⟩
        "e1" 3 9).status = 200 ∧
      (resolveHandler ⟨[], [],
        [⟨"e1", "D1", "Ana", "Reloj", ⟨10, 20, ""⟩, 0, "active", none⟩]⟩
        "e1" 3 9).events = [Event.emergencyResolved "e1"] ∧
      (resolveHandler ⟨[], [],
        [⟨"e1", "D1", "Ana", "Reloj", ⟨10, 20, ""⟩, 0, "active", none⟩]⟩
        "e1" 3 9).state.emergenciesFile = []) ∧
    ((resolveHandler
        ⟨[], [⟨"e1", "D1", "Ana", "Reloj", ⟨10, 20, ""⟩, 0, "active", none⟩],
          [⟨"e1", "D1", "Ana", "Reloj", ⟨10, 20, ""⟩, 0, "active", none⟩]⟩
        "e1" 3 9).state.activeEmergencies.find? (fun x => x.id == "e1")
        = some ⟨"e1", "D1", "Ana", "Reloj", ⟨10, 20, ""⟩, 0, "resolved",
            some 3⟩ ∧
      (resolveHandler
        ⟨[], [⟨"e1", "D1", "Ana", "Reloj", ⟨10, 20, ""⟩, 0, "active", none⟩],
          [⟨"e1", "D1", "Ana", "Reloj", ⟨10, 20, ""⟩, 0, "active", none⟩]⟩
        "e1" 3 9).state.emergenciesFile.find? (fun x => x.id == "e1")
        = some ⟨"e1", "D1", "Ana", "Reloj", ⟨10, 20, ""⟩, 0, "resolved",
            some 9⟩) := by
  have h1 := (resolve_skips_log_when_absent ⟨[], [],
      [⟨"e1", "D1", "Ana", "Reloj", ⟨10, 20, ""⟩, 0, "active", none⟩]⟩
      "e1" 3 9).1
      ⟨"e1", "D1", "Ana", "Reloj", ⟨10, 20, ""⟩, 0, "active", none⟩
      (by decide) (by decide)
  have h2 := (resolve_skips_log_when_absent
      ⟨[], [⟨"e1", "D1", "Ana", "Reloj", ⟨10, 20, ""⟩, 0, "active", none⟩],
        [⟨"e1", "D1", "Ana", "Reloj", ⟨10, 20, ""⟩, 0, "active", none⟩]⟩
      "e1" 3 9).2
      ⟨"e1", "D1", "Ana", "Reloj", ⟨10, 20, ""⟩, 0, "active", none⟩
      ⟨"e1", "D1", "Ana", "Reloj", ⟨10, 20, ""⟩, 0, "active", none⟩
      (by decide) (by decide)
  exact ⟨⟨h1.1, h1.2.1, h1.2.2.1⟩, h2⟩

/-! ### Claim C2 -/

/-- C2: a successful `POST /api/sos` for a registered device with
latitude 10 / longitude 20 appends one record with status "active",
`resolvedAt` null and those coordinates to both the persisted log and the
in-memory list, emits exactly one `new_emergency` broadcast carrying the
full record, and resolves the display name in the order explicit request
parameter, then the device's stored `ownerDisplayName`, then its stored
`ownerName`, then the literal "Usuario" (a stage is skipped when its string
is empty, JS falsiness). -/
theorem sos_success_creates_and_broadcasts :
    ∀ (s : ServerState) (req : SosReq) (newId : String) (now : Int)
      (did : String) (loc : LocationReq) (device : Device),
      req.deviceId = some did → did ≠ "" →
      req.location = some loc →
      loc.latitude = some 10 → loc.longitude = some 20 →
      s.devicesFile.find? (fun d => d.deviceId == did) = some device →
      ∃ e, sosHandler s req newId now
          = ⟨{ s with
                emergenciesFile := s.emergenciesFile ++ [e]
                activeEmergencies := s.activeEmergencies ++ [e] },
              200, [Event.wroteEmergencies, Event.newEmergency e], some e⟩ ∧
        e.status = "active" ∧ e.resolvedAt = none ∧
        e.location.latitude = 10 ∧ e.location.longitude = 20 ∧
        (sosHandler s req newId now).events.filter isNewEmergencyEvt
          = [Event.newEmergency e] ∧
        (∀ nm, req.ownerDisplayName = some nm → nm ≠ "" →
          e.ownerDisplayName = nm) ∧
        ((req.ownerDisplayName = none ∨ req.ownerDisplayName = some "") →
          (device.ownerDisplayName ≠ "" →
            e.ownerDisplayName = device.ownerDisplayName) ∧
          (device.ownerDisplayName = "" → device.ownerName ≠ "" →
            e.ownerDisplayName = device.ownerName) ∧
          (device.ownerDisplayName = "" → device.ownerName = "" →
            e.ownerDisplayName = "Usuario")) := by
  intro s req newId now did loc device hdid hne hloc hla hlo hfind
  have hEq : sosHandler s req newId now
      = ⟨{ s with
            emergenciesFile := s.emergenciesFile
              ++ [newEmergencyRecord req loc device did newId now 10 20]
            activeEmergencies := s.activeEmergencies
              ++ [newEmergencyRecord req loc device did newId now 10 20] },
          200,
          [Event.wroteEmergencies,
            Event.newEmergency
              (newEmergencyRecord req loc device did newId now 10 20)],
          some (newEmergencyRecord req loc device did newId now 10 20)⟩ := by
    norm_num [sosHandler, hdid, hne, hloc, hla, hlo, hfind]
  refine ⟨newEmergencyRecord req loc device did newId now 10 20, hEq,
    rfl, rfl, rfl, rfl, ?_, ?_, ?_⟩
  · rw [hEq]
    simp [isNewEmergencyEvt]
  · intro nm hnm hnmne
    simp [newEmergencyRecord, jsOrOpt, hnm, hnmne]
  · intro hodn
    refine ⟨?_, ?_, ?_⟩
    · intro hdev
      rcases hodn with h0 | h0 <;>
        simp [newEmergencyRecord, jsOrOpt, jsOrStr, h0, hdev]
    · intro hdev hon
      rcases hodn with h0 | h0 <;>
        simp [newEmergencyRecord, jsOrOpt, jsOrStr, h0, hdev, hon]
    · intro hdev hon
      rcases hodn with h0 | h0 <;>
        simp [newEmergencyRecord, jsOrOpt, jsOrStr, h0, hdev, hon]

/-- C2 witness: SOS at (10, 20) for a registered device `D1` with empty
request display name falls back to the device's stored
`ownerDisplayName`. -/
theorem sos_success_creates_and_broadcasts_witness :
    ∃ e, sosHandler
        ⟨[⟨"i1", "D1", "Reloj", "Ana", "AnaD", 0, none,
            ⟨0, 0, 0, ⟨0, 0, ""⟩⟩, false⟩], [], []⟩
        ⟨some "D1", none, some ⟨some 10, some 20, some "Calle 1"⟩⟩ "e9" 4
        = ⟨⟨[⟨"i1", "D1", "Reloj", "Ana", "AnaD", 0, none,
              ⟨0, 0, 0, ⟨0, 0, ""⟩⟩, false⟩], [e], [e]⟩,
            200, [Event.wroteEmergencies, Event.newEmergency e], some e⟩ ∧
      e.status = "active" ∧ e.resolvedAt = none ∧
      e.location.latitude = 10 ∧ e.location.longitude = 20 ∧
      e.ownerDisplayName = "AnaD" := by
  obtain ⟨e, hEq, hst, hres, hla, hlo, _, _, hodn⟩ :=
    sos_success_creates_and_broadcasts
      ⟨[⟨"i1", "D1", "Reloj", "Ana", "AnaD", 0, none,
          ⟨0, 0, 0, ⟨0, 0, ""⟩⟩, false⟩], [], []⟩
      ⟨some "D1", none, some ⟨some 10, some 20, some "Calle 1"⟩⟩ "e9" 4
      "D1" ⟨some 10, some 20, some "Calle 1"⟩
      ⟨"i1", "D1", "Reloj", "Ana", "AnaD", 0, none,
        ⟨0, 0, 0, ⟨0, 0, ""⟩⟩, false⟩
      rfl (by decide) rfl rfl rfl (by decide)
  refine ⟨e, ?_, hst, hres, hla, hlo, ?_⟩
  · exact hEq.trans (by rfl)
  · simpa using (hodn (Or.inl rfl)).1 (by decide)

/-! ### Claim C1 -/

/-- JS-falsiness validation actually performed by `POST /api/sos`
(server.js:139-153): `!deviceId || !location || !location.latitude ||
!location.longitude`, where a missing string, the empty string, a missing
number and the number 0 are all falsy. -/
def sosValidationRejects (req : SosReq) : Prop :=
  req.deviceId = none ∨ req.deviceId = some "" ∨ req.location = none ∨
    ∃ loc, req.location = some loc ∧
      (loc.latitude = none ∨ loc.latitude = some 0 ∨
        loc.longitude = none ∨ loc.longitude = some 0)

/-- C1 counterexample: a request with `deviceId` present and registered and
both coordinates present, but `latitude = 0`, is rejected with 400 — the
claim's "ValidationError iff a field is absent" fails, since nothing is
absent here (and the device exists, so it is not a 404 either). -/
theorem sos_zero_latitude_rejected_though_present :
    (sosHandler
        ⟨[⟨"i1", "D1", "Reloj", "Ana", "Ana", 0, none,
            ⟨0, 0, 0, ⟨0, 0, ""⟩⟩, false⟩], [], []⟩
        ⟨some "D1", none, some ⟨some 0, some 20, none⟩⟩ "e1" 0).status
        = 400 ∧
      (⟨some "D1", none, some ⟨some 0, some 20, none⟩⟩ : SosReq).deviceId
        ≠ none ∧
      (⟨some 0, some 20, none⟩ : LocationReq).latitude ≠ none ∧
      (⟨some 0, some 20, none⟩ : LocationReq).longitude ≠ none ∧
      (ServerState.devicesFile
          ⟨[⟨"i1", "D1", "Reloj", "Ana", "Ana", 0, none,
              ⟨0, 0, 0, ⟨0, 0, ""⟩⟩, false⟩], [], []⟩).find?
          (fun d => d.deviceId == "D1")
        = some ⟨"i1", "D1", "Reloj", "Ana", "Ana", 0, none,
            ⟨0, 0, 0, ⟨0, 0, ""⟩⟩, false⟩ := by
  refine ⟨?_, by simp, by simp, by simp, by decide⟩
  decide

/-- C1 amended: `POST /api/sos` answers 400 iff the body fails the JS-falsy
validation (`deviceId` absent or empty, `location` absent, or a coordinate
absent or 0); it answers 404 iff validation passes and the deviceId has no
device record; and on any non-200 outcome the state is unchanged and no
event — neither a broadcast nor a file write — is emitted. -/
theorem sos_failure_cases :
    ∀ (s : ServerState) (req : SosReq) (newId : String) (now : Int),
      ((sosHandler s req newId now).status = 400 ↔ sosValidationRejects req) ∧
      ((sosHandler s req newId now).status = 404 ↔
        (¬ sosValidationRejects req ∧
          ∃ did, req.deviceId = some did ∧
            s.devicesFile.find? (fun d => d.deviceId == did) = none)) ∧
      ((sosHandler s req newId now).status ≠ 200 →
        (sosHandler s req newId now).state = s ∧
        (sosHandler s req newId now).events = []) := by
  intro s req newId now
  obtain ⟨rdid, rodn, rloc⟩ := req
  rcases rdid with _ | did
  · simp [sosHandler, sosValidationRejects]
  by_cases hne : did = ""
  · subst hne
    simp [sosHandler, sosValidationRejects]
  rcases rloc with _ | loc
  · simp [sosHandler, sosValidationRejects, hne]
  obtain ⟨rla, rlo, rad⟩ := loc
  rcases rla with _ | la
  · simp [sosHandler, sosValidationRejects, hne]
  rcases rlo with _ | lo
  · simp [sosHandler, sosValidationRejects, hne]
  by_cases hz : la = 0 ∨ lo = 0
  · rcases hz with hz | hz <;> subst hz <;>
      simp [sosHandler, sosValidationRejects, hne]
  push_neg at hz
  rcases hfind : s.devicesFile.find? (fun d => d.deviceId == did)
    with _ | device
  · have hall := List.find?_eq_none.mp hfind
    simp only [sosHandler, sosValidationRejects, hfind]
    simp [hne, hz.1, hz.2]
    intro x hx
    simpa using hall x hx
  · simp [sosHandler, sosValidationRejects, hne, hz.1, hz.2, hfind]
    exact ⟨device, List.mem_of_find?_eq_some hfind,
      by simpa using List.find?_some hfind⟩

/-- C1 (amended) witness: SOS for an unregistered device on the empty
store: 404, state unchanged, no events. -/
theorem sos_failure_cases_witness :
    (sosHandler ⟨[], [], []⟩
        ⟨some "D9", none, some ⟨some 1, some 2, none⟩⟩ "e1" 0).state
        = ⟨[], [], []⟩ ∧
      (sosHandler ⟨[], [], []⟩
        ⟨some "D9", none, some ⟨some 1, some 2, none⟩⟩ "e1" 0).events
        = [] := by
  exact (sos_failure_cases ⟨[], [], []⟩
      ⟨some "D9", none, some ⟨some 1, some 2, none⟩⟩ "e1" 0).2.2
    (by decide)

/-! ### Claim C5 -/

theorem step_device_count {s s' : ServerState} (h : Step s s') :
    s'.devicesFile.length ≤ s.devicesFile.length ∨
      ∃ req newId now, s' = (registerHandler s req newId now).state := by
  have maplen : ∀ (l : List Device) (l' : List Device),
      l'.map Device.deviceId = l.map Device.deviceId →
        l'.length ≤ l.length := by
    intro l l' hmap
    have := congrArg List.length hmap
    simpa using Nat.le_of_eq this
  cases h with
  | sos req newId now =>
    exact Or.inl (Nat.le_of_eq
      (congrArg List.length (sosHandler_devicesFile s req newId now)))
  | listEmergencies =>
    exact Or.inl (Nat.le_of_eq
      (congrArg (fun t => t.devicesFile.length)
        (listEmergenciesHandler_state s)))
  | resolve id nowMem nowFile =>
    exact Or.inl (Nat.le_of_eq
      (congrArg List.length (resolveHandler_devicesFile s id nowMem nowFile)))
  | register req newId now => exact Or.inr ⟨req, newId, now, rfl⟩
  | health req now =>
    exact Or.inl (maplen _ _ (healthHandler_devicesFile_map s req now))
  | listDevices now =>
    exact Or.inl (maplen _ _ (listDevicesHandler_devicesFile_map s now))
  | getDevice deviceId now =>
    exact Or.inl (Nat.le_of_eq
      (congrArg (fun t => t.devicesFile.length)
        (getDeviceHandler_state s deviceId now)))
  | deleteDevice deviceId =>
    exact Or.inl (deleteDeviceHandler_devicesFile_sublist s deviceId).length_le
  | putDevice deviceId req =>
    exact Or.inl (maplen _ _ (putDeviceHandler_devicesFile_map s deviceId req))

/-- C5: `deviceId` values are pairwise distinct in every reachable state;
a register whose `deviceId` is already present answers 409 and leaves the
state — hence the first record — untouched; a register for a fresh
`deviceId` appends exactly one record with zeroed health fields, null
`lastUpdate` and `isOnline = false`; and no operation other than register
ever makes the device list longer. -/
theorem register_conflict_and_unique_ids :
    ∀ (s s' : ServerState) (req : RegisterReq) (newId : String) (now : Int)
      (did dn : String),
      (Reachable s → (s.devicesFile.map Device.deviceId).Nodup) ∧
      (req.deviceId = some did → req.deviceName = some dn →
        did ≠ "" → dn ≠ "" →
        (∀ d0, s.devicesFile.find? (fun d => d.deviceId == did) = some d0 →
          registerHandler s req newId now = ⟨s, 409, [], none⟩) ∧
        (s.devicesFile.find? (fun d => d.deviceId == did) = none →
          registerHandler s req newId now
            = ⟨{ s with
                  devicesFile := s.devicesFile
                    ++ [newDeviceRecord req did dn newId now] },
                200, [Event.wroteDevices],
                some (newDeviceRecord req did dn newId now)⟩ ∧
          (newDeviceRecord req did dn newId now).deviceId = did ∧
          (newDeviceRecord req did dn newId now).healthData
            = ⟨0, 0, 0, ⟨0, 0, ""⟩⟩ ∧
          (newDeviceRecord req did dn newId now).lastUpdate = none ∧
          (newDeviceRecord req did dn newId now).isOnline = false)) ∧
      (Step s s' →
        s'.devicesFile.length ≤ s.devicesFile.length ∨
        ∃ rreq rid rnow, s' = (registerHandler s rreq rid rnow).state) := by
  intro s s' req newId now did dn
  refine ⟨reachable_deviceIds_nodup, ?_, step_device_count⟩
  intro hdid hdn hne1 hne2
  constructor
  · intro d0 hfound
    simp [registerHandler, hdid, hdn, hne1, hne2, hfound]
  · intro hnone
    refine ⟨?_, rfl, rfl, rfl, rfl⟩
    simp [registerHandler, hdid, hdn, hne1, hne2, hnone]

/-- C5 witness: registering `D1` on the empty store and then registering
`D1` again: the second call answers 409 and leaves the one-record store
unchanged, whose ids are distinct. -/
theorem register_conflict_and_unique_ids_witness :
    registerHandler
        (registerHandler initState ⟨some "D1", some "Reloj", none, none⟩
          "u1" 0).state
        ⟨some "D1", some "Reloj2", none, none⟩ "u2" 1
      = ⟨(registerHandler initState ⟨some "D1", some "Reloj", none, none⟩
            "u1" 0).state, 409, [], none⟩ ∧
      ((registerHandler initState ⟨some "D1", some "Reloj", none, none⟩
          "u1" 0).state.devicesFile.map Device.deviceId).Nodup := by
  have h := register_conflict_and_unique_ids
    (registerHandler initState ⟨some "D1", some "Reloj", none, none⟩
      "u1" 0).state
    (registerHandler initState ⟨some "D1", some "Reloj", none, none⟩
      "u1" 0).state
    ⟨some "D1", some "Reloj2", none, none⟩ "u2" 1 "D1" "Reloj2"
  refine ⟨?_, ?_⟩
  · exact (h.2.1 rfl rfl (by decide) (by decide)).1
      (newDeviceRecord ⟨some "D1", some "Reloj", none, none⟩ "D1" "Reloj"
        "u1" 0)
      (by decide)
  · exact h.1 (Reachable.step Reachable.init
      (Step.register initState ⟨some "D1", some "Reloj", none, none⟩ "u1" 0))

/-! ### Claim C6 -/

theorem jsOrNum_zero (a : Option Rat) : jsOrNum a 0 = a.getD 0 := by
  rcases a with _ | x
  · rfl
  · by_cases h : x = 0 <;> simp [jsOrNum, h]

theorem jsOrOpt_empty (a : Option String) : jsOrOpt a "" = a.getD "" := by
  rcases a with _ | x
  · rfl
  · by_cases h : x = "" <;> simp [jsOrOpt, h]

theorem applyHealth_immutable (req : HealthReq) (now : Int) (d : Device) :
    (applyHealth req now d).id = d.id ∧
      (applyHealth req now d).deviceId = d.deviceId ∧
      (applyHealth req now d).deviceName = d.deviceName ∧
      (applyHealth req now d).ownerName = d.ownerName ∧
      (applyHealth req now d).ownerDisplayName = d.ownerDisplayName ∧
      (applyHealth req now d).registeredAt = d.registeredAt := by
  obtain ⟨rdid, rhr, rst, rba, rloc⟩ := req
  cases rhr <;> cases rst <;> cases rba <;> cases rloc <;>
    exact ⟨rfl, rfl, rfl, rfl, rfl, rfl⟩

theorem applyHealth_healthData (req : HealthReq) (now : Int) (d : Device) :
    (applyHealth req now d).healthData.heartRate
        = req.heartRate.getD d.healthData.heartRate ∧
      (applyHealth req now d).healthData.steps
        = req.steps.getD d.healthData.steps ∧
      (applyHealth req now d).healthData.battery
        = req.battery.getD d.healthData.battery ∧
      (applyHealth req now d).healthData.location
        = match req.location with
          | some loc =>
            ⟨jsOrNum loc.latitude 0, jsOrNum loc.longitude 0,
              jsOrOpt loc.address ""⟩
          | none => d.healthData.location := by
  obtain ⟨rdid, rhr, rst, rba, rloc⟩ := req
  cases rhr <;> cases rst <;> cases rba <;> cases rloc <;>
    exact ⟨rfl, rfl, rfl, rfl⟩

theorem applyHealth_isOnline (req : HealthReq) (now : Int) (d : Device) :
    (applyHealth req now d).isOnline = true := by
  obtain ⟨rdid, rhr, rst, rba, rloc⟩ := req
  cases rhr <;> cases rst <;> cases rba <;> cases rloc <;> rfl

/-- C6: a successful `POST /api/health` rewrites exactly the first matching
device (first-match position preserved): `lastUpdate := now` and
`isOnline := true` unconditionally; each of heartRate/steps/battery is
overwritten only when provided, otherwise kept; `location` is replaced as a
whole only when provided, its missing sub-fields defaulting to 0 / "";
and every identity field (`id`, `deviceId`, `deviceName`, `ownerName`,
`ownerDisplayName`, `registeredAt`) is unchanged. -/
theorem health_updates_only_provided_fields :
    ∀ (s : ServerState) (req : HealthReq) (now : Int) (did : String)
      (d0 : Device),
      req.deviceId = some did → did ≠ "" →
      s.devicesFile.find? (fun d => d.deviceId == did) = some d0 →
      (healthHandler s req now).status = 200 ∧
      ∃ l₁ l₂, s.devicesFile = l₁ ++ d0 :: l₂ ∧
        (healthHandler s req now).state.devicesFile
          = l₁ ++ applyHealth req now d0 :: l₂ ∧
        (applyHealth req now d0).lastUpdate = some now ∧
        (applyHealth req now d0).isOnline = true ∧
        (applyHealth req now d0).id = d0.id ∧
        (applyHealth req now d0).deviceId = d0.deviceId ∧
        (applyHealth req now d0).deviceName = d0.deviceName ∧
        (applyHealth req now d0).ownerName = d0.ownerName ∧
        (applyHealth req now d0).ownerDisplayName = d0.ownerDisplayName ∧
        (applyHealth req now d0).registeredAt = d0.registeredAt ∧
        (∀ h, req.heartRate = some h →
          (applyHealth req now d0).healthData.heartRate = h) ∧
        (req.heartRate = none →
          (applyHealth req now d0).healthData.heartRate
            = d0.healthData.heartRate) ∧
        (∀ st, req.steps = some st →
          (applyHealth req now d0).healthData.steps = st) ∧
        (req.steps = none →
          (applyHealth req now d0).healthData.steps
            = d0.healthData.steps) ∧
        (∀ b, req.battery = some b →
          (applyHealth req now d0).healthData.battery = b) ∧
        (req.battery = none →
          (applyHealth req now d0).healthData.battery
            = d0.healthData.battery) ∧
        (∀ loc, req.location = some loc →
          (applyHealth req now d0).healthData.location.latitude
              = loc.latitude.getD 0 ∧
            (applyHealth req now d0).healthData.location.longitude
              = loc.longitude.getD 0 ∧
            (applyHealth req now d0).healthData.location.address
              = loc.address.getD "") ∧
        (req.location = none →
          (applyHealth req now d0).healthData.location
            = d0.healthData.location) := by
  intro s req now did d0 hdid hne hfind
  obtain ⟨l₁, l₂, hl, _, hupd⟩ :=
    updateFirst_decomp (l := s.devicesFile) (applyHealth req now) hfind
  have hstate : (healthHandler s req now).state.devicesFile
      = l₁ ++ applyHealth req now d0 :: l₂ := by
    rw [← hupd]
    simp [healthHandler, hdid, hne, hfind]
  have himm := applyHealth_immutable req now d0
  have hhd := applyHealth_healthData req now d0
  refine ⟨by simp [healthHandler, hdid, hne, hfind], l₁, l₂, hl, hstate,
    applyHealth_lastUpdate req now d0, applyHealth_isOnline req now d0,
    himm.1, himm.2.1, himm.2.2.1, himm.2.2.2.1, himm.2.2.2.2.1,
    himm.2.2.2.2.2, ?_, ?_, ?_, ?_, ?_, ?_, ?_, ?_⟩
  · intro h hh
    rw [hhd.1, hh]
    rfl
  · intro hh
    rw [hhd.1, hh]
    rfl
  · intro st hs
    rw [hhd.2.1, hs]
    rfl
  · intro hs
    rw [hhd.2.1, hs]
    rfl
  · intro b hb
    rw [hhd.2.2.1, hb]
    rfl
  · intro hb
    rw [hhd.2.2.1, hb]
    rfl
  · intro loc hloc
    have h4 := hhd.2.2.2
    rw [hloc] at h4
    simp only [h4]
    exact ⟨jsOrNum_zero _, jsOrNum_zero _, jsOrOpt_empty _⟩
  · intro hloc
    have h4 := hhd.2.2.2
    rw [hloc] at h4
    exact h4

/-- C6 witness: updating only `steps` of a registered device leaves
heartRate, battery and location exactly as stored and stamps
`lastUpdate`/`isOnline`. -/
theorem health_updates_only_provided_fields_witness :
    (healthHandler
        ⟨[⟨"i1", "D1", "Reloj", "Ana", "Ana", 0, none,
            ⟨70, 3, 50, ⟨1, 2, "x"⟩⟩, false⟩], [], []⟩
        ⟨some "D1", none, some 5, none, none⟩ 99).status = 200 ∧
      (applyHealth ⟨some "D1", none, some 5, none, none⟩ 99
          ⟨"i1", "D1", "Reloj", "Ana", "Ana", 0, none,
            ⟨70, 3, 50, ⟨1, 2, "x"⟩⟩, false⟩).healthData.steps = 5 ∧
      (applyHealth ⟨some "D1", none, some 5, none, none⟩ 99
          ⟨"i1", "D1", "Reloj", "Ana", "Ana", 0, none,
            ⟨70, 3, 50, ⟨1, 2, "x"⟩⟩, false⟩).healthData.heartRate = 70 ∧
      (applyHealth ⟨some "D1", none, some 5, none, none⟩ 99
          ⟨"i1", "D1", "Reloj", "Ana", "Ana", 0, none,
            ⟨70, 3, 50, ⟨1, 2, "x"⟩⟩, false⟩).healthData.battery = 50 ∧
      (applyHealth ⟨some "D1", none, some 5, none, none⟩ 99
          ⟨"i1", "D1", "Reloj", "Ana", "Ana", 0, none,
            ⟨70, 3, 50, ⟨1, 2, "x"⟩⟩, false⟩).healthData.location
        = ⟨1, 2, "x"⟩ ∧
      (applyHealth ⟨some "D1", none, some 5, none, none⟩ 99
          ⟨"i1", "D1", "Reloj", "Ana", "Ana", 0, none,
            ⟨70, 3, 50, ⟨1, 2, "x"⟩⟩, false⟩).lastUpdate = some 99 := by
  obtain ⟨h200, l₁, l₂, hl, hstate, hlast, hon, hid, hdid2, hdname, honame,
      hodname, hreg, hhrS, hhrN, hstS, hstN, hbaS, hbaN, hlocS, hlocN⟩ :=
    health_updates_only_provided_fields
      ⟨[⟨"i1", "D1", "Reloj", "Ana", "Ana", 0, none,
          ⟨70, 3, 50, ⟨1, 2, "x"⟩⟩, false⟩], [], []⟩
      ⟨some "D1", none, some 5, none, none⟩ 99 "D1"
      ⟨"i1", "D1", "Reloj", "Ana", "Ana", 0, none,
        ⟨70, 3, 50, ⟨1, 2, "x"⟩⟩, false⟩
      rfl (by decide) (by decide)
  exact ⟨h200, hstS 5 rfl, hhrN rfl, hbaN rfl, hlocN rfl, hlast⟩

/-! ### Claim C8 -/

/-- C8: deleting an existing device removes its record from the device
store (in a reachable state no record with that `deviceId` remains) and
leaves the persisted emergency log and the in-memory emergency list
byte-for-byte unchanged — no removal, no field alteration, and no emergency
file write or broadcast. -/
theorem delete_device_preserves_emergencies :
    ∀ (s : ServerState) (deviceId : String),
      Reachable s →
      ∀ d0, s.devicesFile.find? (fun d => d.deviceId == deviceId) = some d0 →
        (deleteDeviceHandler s deviceId).status = 200 ∧
        (deleteDeviceHandler s deviceId).state.devicesFile.find?
            (fun d => d.deviceId == deviceId) = none ∧
        (deleteDeviceHandler s deviceId).state.emergenciesFile
          = s.emergenciesFile ∧
        (deleteDeviceHandler s deviceId).state.activeEmergencies
          = s.activeEmergencies ∧
        (deleteDeviceHandler s deviceId).events = [Event.wroteDevices] := by
  intro s deviceId hreach d0 hfind
  have hnodup := reachable_deviceIds_nodup hreach
  refine ⟨?_, ?_, (deleteDeviceHandler_emergencies s deviceId).1,
    (deleteDeviceHandler_emergencies s deviceId).2, ?_⟩
  · simp [deleteDeviceHandler, hfind]
  · have hstate : (deleteDeviceHandler s deviceId).state.devicesFile
        = s.devicesFile.eraseP (fun d => d.deviceId == deviceId) := by
      simp [deleteDeviceHandler, hfind]
    rw [hstate]
    exact find?_eraseP_none hnodup
  · simp [deleteDeviceHandler, hfind]

/-- C8 witness: register `D1`, raise an SOS for it, then delete `D1`: the
device is gone while both emergency stores are unchanged. -/
theorem delete_device_preserves_emergencies_witness :
    (deleteDeviceHandler
        (sosHandler
          (registerHandler initState
            ⟨some "D1", some "Reloj", some "Ana", none⟩ "u1" 0).state
          ⟨some "D1", none, some ⟨some 10, some 20, none⟩⟩ "e1" 2).state
        "D1").status = 200 ∧
      (deleteDeviceHandler
        (sosHandler
          (registerHandler initState
            ⟨some "D1", some "Reloj", some "Ana", none⟩ "u1" 0).state
          ⟨some "D1", none, some ⟨some 10, some 20, none⟩⟩ "e1" 2).state
        "D1").state.devicesFile.find? (fun d => d.deviceId == "D1")
        = none ∧
      (deleteDeviceHandler
        (sosHandler
          (registerHandler initState
            ⟨some "D1", some "Reloj", some "Ana", none⟩ "u1" 0).state
          ⟨some "D1", none, some ⟨some 10, some 20, none⟩⟩ "e1" 2).state
        "D1").state.emergenciesFile
        = ((sosHandler
            (registerHandler initState
              ⟨some "D1", some "Reloj", some "Ana", none⟩ "u1" 0).state
            ⟨some "D1", none, some ⟨some 10, some 20, none⟩⟩
            "e1" 2).state).emergenciesFile ∧
      (deleteDeviceHandler
        (sosHandler
          (registerHandler initState
            ⟨some "D1", some "Reloj", some "Ana", none⟩ "u1" 0).state
          ⟨some "D1", none, some ⟨some 10, some 20, none⟩⟩ "e1" 2).state
        "D1").state.activeEmergencies
        = ((sosHandler
            (registerHandler initState
              ⟨some "D1", some "Reloj", some "Ana", none⟩ "u1" 0).state
            ⟨some "D1", none, some ⟨some 10, some 20, none⟩⟩
            "e1" 2).state).activeEmergencies := by
  have h := delete_device_preserves_emergencies
    (sosHandler
      (registerHandler initState
        ⟨some "D1", some "Reloj", some "Ana", none⟩ "u1" 0).state
      ⟨some "D1", none, some ⟨some 10, some 20, none⟩⟩ "e1" 2).state
    "D1"
    (Reachable.step
      (Reachable.step Reachable.init
        (Step.register initState
          ⟨some "D1", some "Reloj", some "Ana", none⟩ "u1" 0))
      (Step.sos
        (registerHandler initState
          ⟨some "D1", some "Reloj", some "Ana", none⟩ "u1" 0).state
        ⟨some "D1", none, some ⟨some 10, some 20, none⟩⟩ "e1" 2))
    (newDeviceRecord ⟨some "D1", some "Reloj", some "Ana", none⟩
      "D1" "Reloj" "u1" 0)
    (by decide)
  exact ⟨h.1, h.2.1, h.2.2.1, h.2.2.2.1⟩

/-! ### Claim C4 -/

theorem rat_diff_lt_two_minutes (a : Int) :
    ((a : Rat) / 1000 / 60 < 2) ↔ a < 120000 := by
  rw [div_div, div_lt_iff₀ (by norm_num : (0 : Rat) < 1000 * 60)]
  constructor
  · intro h
    have : (a : Rat) < 120000 := by linarith
    exact_mod_cast this
  · intro h
    have : (a : Rat) < 120000 := by exact_mod_cast h
    linarith

theorem refreshOnline_isOnline (now : Int) (d : Device)
    (hinv : d.lastUpdate = none → d.isOnline = false) :
    (refreshOnline now d).isOnline = isOnlineSpec d.lastUpdate now := by
  rcases hlu : d.lastUpdate with _ | lu
  · simp [refreshOnline, hlu, isOnlineSpec, hinv hlu]
  · simp only [refreshOnline, hlu, isOnlineSpec]
    rw [decide_eq_decide]
    exact rat_diff_lt_two_minutes (now - lu)

/-- C4: in every reachable state, every device record returned by
`GET /api/devices` or `GET /api/devices/:deviceId` carries
`isOnline = isOnlineSpec lastUpdate now`, the spec's pure Presence
Evaluator (`lastUpdate` non-null and strictly less than 2 minutes = 120000
ms old); in particular a device last updated 90 s before now reads online
and one last updated 121 s before now reads offline. -/
theorem read_isOnline_matches_presence_spec :
    ∀ (s : ServerState) (deviceId : String) (now : Int),
      Reachable s →
      (∀ ds, (listDevicesHandler s now).payload = some ds →
        ∀ d' ∈ ds, d'.isOnline = isOnlineSpec d'.lastUpdate now) ∧
      (∀ d', (getDeviceHandler s deviceId now).payload = some d' →
        d'.isOnline = isOnlineSpec d'.lastUpdate now) ∧
      (∀ t : Int, isOnlineSpec (some (t - 90000)) t = true) ∧
      (∀ t : Int, isOnlineSpec (some (t - 121000)) t = false) := by
  intro s deviceId now hreach
  have hinv := reachable_offline_of_no_update hreach
  refine ⟨?_, ?_, ?_, ?_⟩
  · intro ds hds d' hd'
    have hds' : ds = s.devicesFile.map (refreshOnline now) := by
      injection hds.symm
    rw [hds'] at hd'
    rcases List.mem_map.mp hd' with ⟨y, hy, hdy⟩
    rw [← hdy, refreshOnline_lastUpdate,
      refreshOnline_isOnline now y (hinv y hy)]
  · intro d' hd'
    rcases hfind : s.devicesFile.find? (fun d => d.deviceId == deviceId)
      with _ | y
    · rw [getDeviceHandler, hfind] at hd'
      exact absurd hd' (by simp)
    · rw [getDeviceHandler, hfind] at hd'
      injection hd' with hd'
      rw [← hd', refreshOnline_lastUpdate,
        refreshOnline_isOnline now y
          (hinv y (List.mem_of_find?_eq_some hfind))]
  · intro t
    rw [isOnlineSpec, decide_eq_true_eq]
    omega
  · intro t
    rw [isOnlineSpec, decide_eq_false_iff_not]
    omega

/-- C4 witness: a freshly registered device reads back through Get with the
spec presence value (offline, `lastUpdate` null), and the 90 s / 121 s
numeric examples at `now = 100000`. -/
theorem read_isOnline_matches_presence_spec_witness :
    (∃ d', (getDeviceHandler
        (registerHandler initState ⟨some "D1", some "Reloj", none, none⟩
          "u1" 0).state "D1" 0).payload = some d' ∧
      d'.isOnline = isOnlineSpec d'.lastUpdate 0) ∧
    isOnlineSpec (some 10000) 100000 = true ∧
    isOnlineSpec (some (-21000)) 100000 = false := by
  have h := read_isOnline_matches_presence_spec
    (registerHandler initState ⟨some "D1", some "Reloj", none, none⟩
      "u1" 0).state "D1" 0
    (Reachable.step Reachable.init
      (Step.register initState ⟨some "D1", some "Reloj", none, none⟩
        "u1" 0))
  refine ⟨?_, ?_, ?_⟩
  · refine ⟨refreshOnline 0
      (newDeviceRecord ⟨some "D1", some "Reloj", none, none⟩
        "D1" "Reloj" "u1" 0), by decide, ?_⟩
    exact h.2.1 _ (by decide)
  · have h90 := h.2.2.1 100000
    norm_num at h90
    exact h90
  · have h121 := h.2.2.2 100000
    norm_num at h121
    exact h121

end ElderCare
